/-
Verification development for the FlagJudgeConnector plugin
(src/connectors/flageval-connector.py of VectorInstitute/moonshot-data).

The connector sends an HTTP POST carrying a JSON payload built from a
(prompt, prediction, ground-truth) triple and decodes the streamed reply,
which is a sequence of NUL-separated JSON fragments.  We give a shallow
embedding of the connector's pure request-building code and of the
response-processing loop, modelling Python strings as lists of characters
and exceptions as an `Except` error type, and prove (or refute) the
specification's claims about it.
-/
import Mathlib

deriving instance DecidableEq for Except

/-- A Python `str` is modelled as a list of characters. -/
abbrev PyStr := List Char

/-- The NUL character `"\0"` used as the fragment delimiter. -/
def nulChar : Char := Char.ofNat 0

/-- The `{` character (written via its code point). -/
def lbrace : Char := Char.ofNat 123

/-- The `}` character (written via its code point). -/
def rbrace : Char := Char.ofNat 125

/-- Whether a string contains a NUL byte, i.e. whether Python's
`buffer.split("\0", 1)` would find a delimiter. -/
def hasNul (s : PyStr) : Bool := s.any (fun c => c == nulChar)

/-- Python's `buffer.split("\0", 1)` followed by the two-element unpack:
`some (before, after)` splits at the FIRST NUL; `none` models the
`ValueError` raised by `data, buffer = ...` when no NUL is present. -/
def splitNul : PyStr → Option (PyStr × PyStr)
  | [] => none
  | c :: cs =>
    if c = nulChar then some ([], cs)
    else (splitNul cs).map (fun p => (c :: p.1, p.2))

/-- The bytes strictly before the first NUL (the whole string if none). -/
def preNul : PyStr → PyStr
  | [] => []
  | c :: cs => if c = nulChar then [] else c :: preNul cs

/-- The bytes strictly after the first NUL (empty if none). -/
def postNul : PyStr → PyStr
  | [] => []
  | c :: cs => if c = nulChar then cs else postNul cs

/-- The ASCII whitespace stripped by Python's `str.strip()`
(space, tab, newline, carriage return, vertical tab, form feed). -/
def isPyWs (c : Char) : Bool :=
  c == ' ' || c == '\t' || c == '\n' || c == '\r' ||
    c == Char.ofNat 11 || c == Char.ofNat 12

/-- Python's `str.strip()` on the ASCII-whitespace subset: drop leading and
trailing whitespace characters. -/
def pyStrip (s : PyStr) : PyStr :=
  ((s.dropWhile isPyWs).reverse.dropWhile isPyWs).reverse

/-- JSON insignificant whitespace. -/
def isJsonWs (c : Char) : Bool :=
  c == ' ' || c == '\t' || c == '\n' || c == '\r'

/-- Skip JSON insignificant whitespace. -/
def skipWs (s : PyStr) : PyStr := s.dropWhile isJsonWs

/-- JSON values, as produced by Python's `json.loads` on this connector's
wire format (spec section 6: each fragment is a JSON object with a string
`text` field). -/
inductive JVal where
  | jstr (s : PyStr)
  | jbool (b : Bool)
  | jnull
  | jnum (n : Int)
  | jobj (fields : List (PyStr × JVal))

/-- Value of a hexadecimal digit. -/
def hexVal (c : Char) : Option Nat :=
  if '0' ≤ c ∧ c ≤ '9' then some (c.toNat - '0'.toNat)
  else if 'a' ≤ c ∧ c ≤ 'f' then some (c.toNat - 'a'.toNat + 10)
  else if 'A' ≤ c ∧ c ≤ 'F' then some (c.toNat - 'A'.toNat + 10)
  else none

/-- Value of a decimal digit. -/
def digitVal (c : Char) : Option Nat :=
  if '0' ≤ c ∧ c ≤ '9' then some (c.toNat - '0'.toNat) else none

/-- Greedily take leading decimal digits. -/
def takeDigits : PyStr → (List Nat × PyStr)
  | [] => ([], [])
  | c :: cs =>
    match digitVal c with
    | some d => let p := takeDigits cs; (d :: p.1, p.2)
    | none => ([], c :: cs)

/-- Combine a digit list into a natural number. -/
def digitsToNat (ds : List Nat) : Nat := ds.foldl (fun a d => a * 10 + d) 0

/-- Parse the body of a JSON string after the opening quote, handling the
standard escapes; returns the decoded content and the input after the
closing quote.  Fuel-indexed so that the definition is structural. -/
def parseStringBody : Nat → PyStr → Option (PyStr × PyStr)
  | 0, _ => none
  | _, [] => none
  | fuel + 1, c :: cs =>
    if c = '"' then some ([], cs)
    else if c = '\\' then
      match cs with
      | [] => none
      | e :: cs' =>
        let esc : Option (Char × PyStr) :=
          if e = '"' then some ('"', cs')
          else if e = '\\' then some ('\\', cs')
          else if e = '/' then some ('/', cs')
          else if e = 'b' then some (Char.ofNat 8, cs')
          else if e = 'f' then some (Char.ofNat 12, cs')
          else if e = 'n' then some ('\n', cs')
          else if e = 'r' then some ('\r', cs')
          else if e = 't' then some ('\t', cs')
          else if e = 'u' then
            match cs' with
            | h1 :: h2 :: h3 :: h4 :: cs'' =>
              match hexVal h1, hexVal h2, hexVal h3, hexVal h4 with
              | some a, some b, some k, some d =>
                some (Char.ofNat (((a * 16 + b) * 16 + k) * 16 + d), cs'')
              | _, _, _, _ => none
            | _ => none
          else none
        match esc with
        | none => none
        | some (ch, rest) => (parseStringBody fuel rest).map (fun p => (ch :: p.1, p.2))
    else if c.toNat < 32 then none
    else (parseStringBody fuel cs).map (fun p => (c :: p.1, p.2))

mutual

/-- Parse one JSON value (string, object, boolean, null or integer — the
subset exercised by this connector's wire format).  Models `json.loads`'s
recursive-descent decoding; fuel-indexed for structural termination. -/
def parseVal : Nat → PyStr → Option (JVal × PyStr)
  | 0, _ => none
  | fuel + 1, s =>
    match skipWs s with
    | [] => none
    | 't' :: 'r' :: 'u' :: 'e' :: cs => some (JVal.jbool true, cs)
    | 'f' :: 'a' :: 'l' :: 's' :: 'e' :: cs => some (JVal.jbool false, cs)
    | 'n' :: 'u' :: 'l' :: 'l' :: cs => some (JVal.jnull, cs)
    | c :: cs =>
      if c = '"' then
        (parseStringBody (cs.length + 1) cs).map (fun p => (JVal.jstr p.1, p.2))
      else if c = lbrace then
        (parseMembers fuel cs true).map (fun p => (JVal.jobj p.1, p.2))
      else if c = '-' then
        match takeDigits cs with
        | ([], _) => none
        | (d :: ds, r) => some (JVal.jnum (-(Int.ofNat (digitsToNat (d :: ds)))), r)
      else
        match takeDigits (c :: cs) with
        | ([], _) => none
        | (d :: ds, r) => some (JVal.jnum (Int.ofNat (digitsToNat (d :: ds))), r)

/-- Parse the members of a JSON object after the opening brace; `allowEnd`
is true when a closing brace may come next (i.e. not right after a comma). -/
def parseMembers : Nat → PyStr → Bool → Option (List (PyStr × JVal) × PyStr)
  | 0, _, _ => none
  | fuel + 1, s, allowEnd =>
    match skipWs s with
    | [] => none
    | c :: cs =>
      if c = rbrace then if allowEnd then some ([], cs) else none
      else if c = '"' then
        match parseStringBody (cs.length + 1) cs with
        | none => none
        | some (key, r1) =>
          match skipWs r1 with
          | ':' :: r2 =>
            match parseVal fuel r2 with
            | none => none
            | some (v, r3) =>
              match skipWs r3 with
              | ',' :: r4 => (parseMembers fuel r4 false).map (fun p => ((key, v) :: p.1, p.2))
              | c2 :: r4 => if c2 = rbrace then some ([(key, v)], r4) else none
              | [] => none
          | _ => none
      else none

end

/-- Python's `json.loads`: parse one JSON value and require only
whitespace after it; `none` models a raised `json.JSONDecodeError`. -/
def json_loads (s : PyStr) : Option JVal :=
  match parseVal (2 * s.length + 4) s with
  | some (v, rest) => if skipWs rest = [] then some v else none
  | none => none

/-- Lookup in a Python dict built from an association list
(later bindings win, as in `dict` construction). -/
def dictGet (fields : List (PyStr × JVal)) (key : PyStr) : Option JVal :=
  fields.foldl (fun acc kv => if kv.1 = key then some kv.2 else acc) none

/-- The key `"text"` looked up by `data["text"]`. -/
def textKey : PyStr := "text".data

/-- Helper: decode a fragment and extract its string `text` field;
`none` when the fragment is not a JSON object carrying a string `text`. -/
def fragText (s : PyStr) : Option PyStr :=
  match json_loads s with
  | some (JVal.jobj fields) =>
    match dictGet fields textKey with
    | some (JVal.jstr t) => some t
    | _ => none
  | _ => none

/-- The Python exceptions that `_process_response`'s loop body can raise:
`valueError` from the two-element unpack of `buffer.split("\0", 1)` when
the buffer holds no NUL; `jsonDecodeError` from `json.loads`; `typeError`
from subscripting a non-dict; `keyError` from a dict without `"text"`;
`attributeError` from `.strip()` on a non-string; `clientError` stands for
an exception raised by the HTTP library while reading. -/
inductive PyErr where
  | valueError
  | jsonDecodeError
  | typeError
  | keyError
  | attributeError
  | clientError
deriving DecidableEq

/-- The loop state of `_process_response`: the running `output` and the
undecoded `buffer`. -/
structure ProcState where
  output : PyStr
  buffer : PyStr
deriving DecidableEq

/-- One iteration of the `async for chunk in response.content.iter_chunked(1024)`
loop body of `FlagJudgeConnector._process_response`:

    if chunk:
        buffer += chunk.decode()
        data, buffer = buffer.split("\0", 1)
        data = json.loads(data)
        text = data["text"].strip()
        output = text
-/
def processChunk (st : ProcState) (chunk : PyStr) : Except PyErr ProcState :=
  if chunk = [] then .ok st
  else
    let buffer := st.buffer ++ chunk
    match splitNul buffer with
    | none => .error PyErr.valueError
    | some (data, rest) =>
      match json_loads data with
      | none => .error PyErr.jsonDecodeError
      | some (JVal.jobj fields) =>
        match dictGet fields textKey with
        | none => .error PyErr.keyError
        | some (JVal.jstr t) => .ok ⟨pyStrip t, rest⟩
        | some _ => .error PyErr.attributeError
      | some _ => .error PyErr.typeError

/-- The whole `async for` loop over the received chunks, starting from a
given state, with the first raised exception propagating. -/
def processChunks : ProcState → List PyStr → Except PyErr ProcState
  | st, [] => .ok st
  | st, c :: cs =>
    match processChunk st c with
    | .ok st' => processChunks st' cs
    | .error e => .error e

/-- `FlagJudgeConnector._process_response` restricted to its `try` block:
start with `output = ""`, `buffer = ""`, run the loop over the chunks of
the body and return `output`. -/
def process_response (chunks : List PyStr) : Except PyErr PyStr :=
  match processChunks ⟨[], []⟩ chunks with
  | .ok st => .ok st.output
  | .error e => .error e

/-- `FlagJudgeConnector._process_response` including its `except` block:
on an exception the code evaluates `await response.text()` inside the
handler (modelled by `respText`) before re-raising; in Python an exception
raised inside the handler propagates instead of the original one. -/
def process_response_logged (chunks : List PyStr) (respText : Except PyErr PyStr) :
    Except PyErr PyStr :=
  match process_response chunks with
  | .ok s => .ok s
  | .error e =>
    match respText with
    | .ok _ => .error e
    | .error e2 => .error e2

/-- Whether an `Except` result is a raised exception. -/
def isError {α : Type} : Except PyErr α → Bool
  | .ok _ => false
  | .error _ => true

/-- An HTTP response as seen by `get_response`: a status code and the
chunks of the streamed body. -/
structure HttpResponse where
  status : Nat
  chunks : List PyStr

/-- The result of `FlagJudgeConnector.get_response` once the POST has
returned a response: the code passes the response straight to
`_process_response`; it never inspects `response.status` (and
`aiohttp` does not raise for a non-2xx status unless asked to). -/
def get_response_result (resp : HttpResponse) : Except PyErr PyStr :=
  process_response resp.chunks

-- Concrete wire fragments used by the specification's testable properties.

/-- The fragment bytes of a single chunk carrying the complete fragment for
judgment text `A`, i.e. the thirteen bytes of a text-`A` JSON object
followed by a NUL. -/
def fragAChunk : PyStr := "\x7b\"text\":\"A\"\x7d\x00".data

/-- One chunk holding the complete NUL-terminated fragment with text `B`. -/
def fragBChunk : PyStr := "\x7b\"text\":\"B\"\x7d\x00".data

/-- One chunk holding the complete NUL-terminated fragment with text `X`. -/
def fragXChunk : PyStr := "\x7b\"text\":\"X\"\x7d\x00".data

/-- One chunk holding the complete NUL-terminated fragment with text `Y`. -/
def fragYChunk : PyStr := "\x7b\"text\":\"Y\"\x7d\x00".data

/-- One chunk holding the fragment whose text is `  hello  ` (padded). -/
def helloChunk : PyStr := "\x7b\"text\":\"  hello  \"\x7d\x00".data

/-- A NUL-terminated fragment that is not valid JSON. -/
def badChunk : PyStr := "garbage\x00".data

/-- A trailing incomplete fragment with no closing NUL. -/
def tailChunk : PyStr := "\x7b\"te".data

-- The outbound-request side of `get_response`.

/-- A JSON-serialisable Python value appearing in the request payload. -/
inductive ParamVal where
  | pstr (s : String)
  | pbool (b : Bool)
deriving DecidableEq

/-- The `new_params` dict literally built by `FlagJudgeConnector.get_response`
(Python dicts preserve insertion order):

    new_params = {
        "model": "flageval_judgemodel",
        "prompt": prompt,
        "pred": prediction,
        "gold": ground_truth,
        "echo": False,
        "stream": False
    }
-/
def new_params (prompt prediction ground_truth : String) : List (String × ParamVal) :=
  [("model", ParamVal.pstr "flageval_judgemodel"),
   ("prompt", ParamVal.pstr prompt),
   ("pred", ParamVal.pstr prediction),
   ("gold", ParamVal.pstr ground_truth),
   ("echo", ParamVal.pbool false),
   ("stream", ParamVal.pbool false)]

/-- Lookup in the payload dict (later bindings win, as in `dict`). -/
def paramGet (fields : List (String × ParamVal)) (key : String) : Option ParamVal :=
  fields.foldl (fun acc kv => if kv.1 = key then some kv.2 else acc) none

/-- The connector configuration supplied by the base `Connector` class:
its endpoint URL and credential token. -/
structure FlagJudgeConn where
  endpoint : String
  token : String

/-- `FlagJudgeConnector._prepare_headers`: returns the literal dict
`{"token": f"{self.token}", "Content-Type": "application/json"}`. -/
def prepare_headers (c : FlagJudgeConn) : List (String × String) :=
  [("token", c.token), ("Content-Type", "application/json")]

/-- The outbound HTTP request issued by `get_response`. -/
structure HttpRequest where
  method : String
  url : String
  headers : List (String × String)
  jsonBody : List (String × ParamVal)

/-- The request built by `FlagJudgeConnector.get_response`:
`session.post(self.endpoint, headers=self._prepare_headers(), json=new_params)`. -/
def get_response_request (c : FlagJudgeConn) (prompt prediction ground_truth : String) :
    HttpRequest :=
  { method := "POST"
    url := c.endpoint
    headers := prepare_headers c
    jsonBody := new_params prompt prediction ground_truth }

example : process_response [fragAChunk] = .ok ['A'] := by rfl

example : process_response [fragAChunk ++ fragBChunk] = .ok ['A'] := by rfl

example : process_response [fragAChunk, fragBChunk] = .ok ['B'] := by rfl

example : process_response [fragAChunk, tailChunk] = .error PyErr.valueError := by rfl

example : process_response [helloChunk] = .ok "hello".data := by rfl

example : process_response [badChunk] = .error PyErr.jsonDecodeError := by rfl

example : process_response [] = .ok [] := by rfl

-- Helper lemmas about the NUL split and the processing loop.

lemma splitNul_eq_none (s : PyStr) (h : hasNul s = false) : splitNul s = none := by
  induction s with
  | nil => rfl
  | cons c cs ih =>
    simp only [hasNul, List.any_cons, Bool.or_eq_false_iff, beq_eq_false_iff_ne, ne_eq] at h
    simp only [splitNul, if_neg h.1, ih (by simpa [hasNul] using h.2), Option.map_none']

lemma splitNul_eq_some (s : PyStr) (h : hasNul s = true) :
    splitNul s = some (preNul s, postNul s) := by
  induction s with
  | nil => simp [hasNul] at h
  | cons c cs ih =>
    by_cases hc : c = nulChar
    · simp [splitNul, preNul, postNul, hc]
    · have hcs : hasNul cs = true := by
        simp only [hasNul, List.any_cons, Bool.or_eq_true, beq_iff_eq] at h
        rcases h with h | h
        · exact absurd h hc
        · simpa [hasNul] using h
      simp [splitNul, preNul, postNul, hc, ih hcs]

lemma preNul_append_left (p q : PyStr) (h : hasNul p = true) :
    preNul (p ++ q) = preNul p := by
  induction p with
  | nil => simp [hasNul] at h
  | cons c cs ih =>
    by_cases hc : c = nulChar
    · simp [preNul, hc]
    · have hcs : hasNul cs = true := by
        simp only [hasNul, List.any_cons, Bool.or_eq_true, beq_iff_eq] at h
        rcases h with h | h
        · exact absurd h hc
        · simpa [hasNul] using h
      simp [preNul, hc, ih hcs]

lemma processChunk_nil (st : ProcState) : processChunk st [] = .ok st := rfl

lemma processChunk_noNul (st : ProcState) (chunk : PyStr)
    (hne : chunk ≠ []) (hn : hasNul (st.buffer ++ chunk) = false) :
    processChunk st chunk = .error PyErr.valueError := by
  rw [processChunk, if_neg hne]
  simp only [splitNul_eq_none _ hn]

lemma processChunk_ok (st st' : ProcState) (chunk : PyStr)
    (hne : chunk ≠ []) (h : processChunk st chunk = .ok st') :
    hasNul (st.buffer ++ chunk) = true ∧
    Option.map pyStrip (fragText (preNul (st.buffer ++ chunk))) = some st'.output ∧
    st'.buffer = postNul (st.buffer ++ chunk) := by
  simp only [processChunk, if_neg hne] at h
  cases hn : hasNul (st.buffer ++ chunk) with
  | false => simp only [splitNul_eq_none _ hn] at h; exact absurd h (by simp)
  | true =>
    simp only [splitNul_eq_some _ hn] at h
    cases hj : json_loads (preNul (st.buffer ++ chunk)) with
    | none => simp [hj] at h
    | some v =>
      cases v with
      | jobj fields =>
        simp only [hj] at h
        cases hg : dictGet fields textKey with
        | none => simp [hg] at h
        | some w =>
          cases w with
          | jstr t =>
            simp only [hg] at h
            injection h with h'
            subst h'
            refine ⟨rfl, ?_, rfl⟩
            simp [fragText, hj, hg]
          | jbool b => simp [hg] at h
          | jnull => simp [hg] at h
          | jnum n => simp [hg] at h
          | jobj f2 => simp [hg] at h
      | jstr t => simp [hj] at h
      | jbool b => simp [hj] at h
      | jnull => simp [hj] at h
      | jnum n => simp [hj] at h

lemma processChunk_badFrag (st : ProcState) (chunk : PyStr)
    (hne : chunk ≠ [])
    (hf : fragText (preNul (st.buffer ++ chunk)) = none) :
    ∃ e, processChunk st chunk = .error e := by
  cases hres : processChunk st chunk with
  | error e => exact ⟨e, rfl⟩
  | ok st' =>
    have h2 := (processChunk_ok st st' chunk hne hres).2.1
    rw [hf] at h2
    exact absurd h2 (by simp)

lemma processChunks_cons_ok (st st' : ProcState) (c : PyStr) (cs : List PyStr)
    (h : processChunk st c = .ok st') :
    processChunks st (c :: cs) = processChunks st' cs := by
  simp [processChunks, h]

lemma processChunks_cons_err (st : ProcState) (e : PyErr) (c : PyStr) (cs : List PyStr)
    (h : processChunk st c = .error e) :
    processChunks st (c :: cs) = .error e := by
  simp [processChunks, h]

lemma processChunks_badFirst (cs : List PyStr) :
    ∀ out buf : PyStr, hasNul buf = false →
    hasNul (buf ++ cs.flatten) = true →
    fragText (preNul (buf ++ cs.flatten)) = none →
    ∃ e, processChunks ⟨out, buf⟩ cs = .error e := by
  induction cs with
  | nil =>
    intro out buf h1 h2 _
    rw [List.flatten_nil, List.append_nil, h1] at h2
    exact absurd h2 (by simp)
  | cons c cs ih =>
    intro out buf h1 h2 h3
    rw [List.flatten_cons, ← List.append_assoc] at h2 h3
    by_cases hc : c = []
    · subst hc
      rw [processChunks_cons_ok ⟨out, buf⟩ ⟨out, buf⟩ [] cs rfl]
      exact ih out buf h1 (by simpa using h2) (by simpa using h3)
    · by_cases hn : hasNul (buf ++ c) = true
      · rw [preNul_append_left _ _ hn] at h3
        obtain ⟨e, he⟩ := processChunk_badFrag ⟨out, buf⟩ c hc h3
        exact ⟨e, processChunks_cons_err _ _ _ _ he⟩
      · have hn' : hasNul (buf ++ c) = false := by
          cases hx : hasNul (buf ++ c)
          · rfl
          · exact absurd hx hn
        have := processChunk_noNul ⟨out, buf⟩ c hc hn'
        exact ⟨PyErr.valueError, processChunks_cons_err _ _ _ _ this⟩

lemma processChunks_all_empty (cs : List PyStr) :
    ∀ st : ProcState, cs.all List.isEmpty = true → processChunks st cs = .ok st := by
  induction cs with
  | nil => intro st _; rfl
  | cons c cs ih =>
    intro st h
    rw [List.all_cons, Bool.and_eq_true] at h
    have hc : c = [] := by simpa using h.1
    subst hc
    rw [processChunks_cons_ok st st [] cs rfl]
    exact ih st h.2

lemma isError_process_response (cs : List PyStr) :
    isError (process_response cs) = isError (processChunks ⟨[], []⟩ cs) := by
  cases h : processChunks (⟨[], []⟩ : ProcState) cs <;> simp [process_response, h, isError]

lemma process_response_of_ok (cs : List PyStr) (st : ProcState)
    (h : processChunks ⟨[], []⟩ cs = .ok st) : process_response cs = .ok st.output := by
  simp [process_response, h]

-- The claims.

/-- C1: the claim says that for the body `{"text":"A"}\0{"text":"B"}\0` the
result is `"B"` regardless of chunking.  Evaluating `_process_response` at
the failing input shows otherwise: delivered as a single chunk (legal, the
body is far below the 1024-byte chunk size) the code returns `"A"`, because
the loop performs exactly one `split`/`json.loads` per received chunk and
the second complete fragment is left in the buffer unparsed when the
stream ends.  Only when the chunk boundary happens to fall on the first
NUL does the code return `"B"`. -/
theorem c1_single_chunk_returns_first_fragment :
    process_response [fragAChunk ++ fragBChunk] = .ok ['A'] ∧
    process_response [fragAChunk, fragBChunk] = .ok ['B'] ∧
    process_response [fragAChunk ++ fragBChunk] ≠ .ok ['B'] :=
  ⟨by rfl, by rfl, by decide⟩

/-- C2: the claim says that for the body `{"text":"A"}\0{"te` the result is
`"A"` regardless of chunking.  Evaluating `_process_response` at the
failing input shows otherwise: when the complete fragment and the
incomplete tail arrive as two separate chunks, the two-element unpack of
`buffer.split("\0", 1)` on the tail chunk raises `ValueError` and the call
fails instead of returning `"A"`.  (Single-chunk delivery does return
`"A"` and leaves the tail unparsed.) -/
theorem c2_trailing_incomplete_raises_on_split_chunking :
    process_response [fragAChunk ++ tailChunk] = .ok ['A'] ∧
    process_response [fragAChunk, tailChunk] = .error PyErr.valueError :=
  ⟨by rfl, by rfl⟩

/-- C3 counterexample: a response with HTTP status 500 whose body is the
fragment `{"text":"A"}\0` makes `get_response` return `"A"`: the call does
not fail, and the body was parsed as judgment fragments — contradicting
the claim that a non-2xx status causes a transport error with no parsing. -/
theorem c3_counterexample_non2xx_body_parsed :
    get_response_result ⟨500, [fragAChunk]⟩ = .ok ['A'] ∧
    isError (get_response_result ⟨500, [fragAChunk]⟩) = false :=
  ⟨by rfl, by rfl⟩

/-- C3 (amended): `get_response` never inspects the HTTP status code —
`aiohttp` does not raise for a non-success status unless asked to, and the
code passes the response straight to `_process_response` — so the body is
decoded as judgment fragments identically for every status, and a non-2xx
response with a decodable body yields its judgment text rather than a
transport error. -/
theorem c3_status_never_inspected :
    (∀ (status status' : Nat) (chunks : List PyStr),
      get_response_result ⟨status, chunks⟩ = get_response_result ⟨status', chunks⟩) ∧
    get_response_result ⟨500, [fragBChunk]⟩ = .ok ['B'] :=
  ⟨fun _ _ _ => rfl, by rfl⟩

/-- C4 counterexample: the body `{"text":"A"}\0garbage\0` (delivered as one
chunk) contains bytes before a NUL delimiter — `garbage` before the second
NUL — that are not valid JSON, yet the call succeeds and returns `"A"`:
the malformed fragment is never parsed because only one fragment is
consumed per received chunk, contradicting the claim that every such body
fails with a decode error. -/
theorem c4_counterexample_malformed_after_first_fragment :
    process_response [fragAChunk ++ badChunk] = .ok ['A'] :=
  by rfl

/-- C4 (amended): if the bytes before the FIRST NUL of the body cannot be
decoded to a JSON object carrying a string `text` field, then the call
fails with a propagated exception whatever the chunking (a decode, type,
key or attribute error when some chunk completes the first fragment, or
the split-unpack `ValueError` when a chunk arrives without a NUL), and no
partial result is returned.  Moreover a judgment already extracted from an
earlier chunk is discarded when a later fragment is malformed: for
`{"text":"A"}\0` followed by chunk `garbage\0` the whole call fails. -/
theorem c4_bad_first_fragment_fails (chunks : List PyStr)
    (h1 : hasNul chunks.flatten = true)
    (h2 : fragText (preNul chunks.flatten) = none) :
    isError (process_response chunks) = true ∧
    process_response [fragAChunk, badChunk] = .error PyErr.jsonDecodeError := by
  constructor
  · obtain ⟨e, he⟩ :=
      processChunks_badFirst chunks [] [] rfl (by simpa using h1) (by simpa using h2)
    rw [isError_process_response, he]
    rfl
  · rfl

/-- C4 witness: the single-chunk body `garbage\0` satisfies the amended
hypotheses and the call indeed raises. -/
theorem c4_bad_first_fragment_fails_witness :
    hasNul (List.flatten [badChunk]) = true ∧
    fragText (preNul (List.flatten [badChunk])) = none ∧
    isError (process_response [badChunk]) = true :=
  ⟨by decide, by decide, (c4_bad_first_fragment_fails [badChunk] (by decide) (by decide)).1⟩

/-- C5 counterexample: the body `x` (one nonempty chunk with no NUL) ends
the stream without any NUL-delimited fragment having been parsed, yet the
call raises `ValueError` instead of returning the empty string, refuting
the claim that every such stream yields `""` with no error. -/
theorem c5_counterexample_nonempty_unparsed_raises :
    process_response [['x']] = .error PyErr.valueError ∧
    process_response [['x']] ≠ .ok [] :=
  ⟨by rfl, by decide⟩

/-- C5 (amended): for an empty response body — every received chunk empty,
in particular no chunks at all — the call returns the empty string and
raises no error.  (A nonempty body that never yields a parsed fragment
raises instead: the empty-string result is only reached when the loop body
never ran.) -/
theorem c5_all_empty_chunks_yield_empty_string (chunks : List PyStr)
    (h : chunks.all List.isEmpty = true) :
    process_response chunks = .ok [] :=
  process_response_of_ok chunks ⟨[], []⟩ (processChunks_all_empty chunks _ h)

/-- C5 witness: a body of two empty chunks (hence an empty body) returns `""`. -/
theorem c5_all_empty_chunks_yield_empty_string_witness :
    List.all ([[], []] : List PyStr) List.isEmpty = true ∧
    process_response ([[], []] : List PyStr) = .ok [] :=
  ⟨by decide, c5_all_empty_chunks_yield_empty_string [[], []] (by decide)⟩

/-- C6: for every input triple, the payload dict built by `get_response`
has exactly the six keys `model, prompt, pred, gold, echo, stream` in that
order, with `model = "flageval_judgemodel"`, `echo = false`,
`stream = false`, and `prompt`/`pred`/`gold` bound to the three inputs. -/
theorem c6_payload_exact_keys (prompt prediction ground_truth : String) :
    (new_params prompt prediction ground_truth).map Prod.fst =
      ["model", "prompt", "pred", "gold", "echo", "stream"] ∧
    paramGet (new_params prompt prediction ground_truth) "model" =
      some (ParamVal.pstr "flageval_judgemodel") ∧
    paramGet (new_params prompt prediction ground_truth) "prompt" =
      some (ParamVal.pstr prompt) ∧
    paramGet (new_params prompt prediction ground_truth) "pred" =
      some (ParamVal.pstr prediction) ∧
    paramGet (new_params prompt prediction ground_truth) "gold" =
      some (ParamVal.pstr ground_truth) ∧
    paramGet (new_params prompt prediction ground_truth) "echo" =
      some (ParamVal.pbool false) ∧
    paramGet (new_params prompt prediction ground_truth) "stream" =
      some (ParamVal.pbool false) :=
  ⟨rfl, rfl, rfl, rfl, rfl, rfl, rfl⟩

/-- C7: whenever an iteration of the loop succeeds on a nonempty chunk, the
new running output is exactly the `text` value of the decoded fragment
(the bytes before the first NUL of the buffer) with leading and trailing
whitespace stripped; in particular the single fragment
`{"text":"  hello  "}\0` yields exactly `"hello"`. -/
theorem c7_result_is_stripped_text :
    (∀ (st st' : ProcState) (chunk : PyStr), chunk ≠ [] →
      processChunk st chunk = .ok st' →
      Option.map pyStrip (fragText (preNul (st.buffer ++ chunk))) = some st'.output) ∧
    process_response [helloChunk] = .ok "hello".data :=
  ⟨fun st st' chunk hne h => (processChunk_ok st st' chunk hne h).2.1, by rfl⟩

/-- C7 witness: the general part instantiated on the `  hello  ` fragment. -/
theorem c7_result_is_stripped_text_witness :
    (helloChunk ≠ ([] : PyStr)) ∧
    processChunk ⟨[], []⟩ helloChunk = .ok ⟨"hello".data, []⟩ ∧
    Option.map pyStrip (fragText (preNul (([] : PyStr) ++ helloChunk))) = some "hello".data :=
  ⟨by decide, by rfl,
    c7_result_is_stripped_text.1 ⟨[], []⟩ ⟨"hello".data, []⟩ helloChunk (by decide) (by rfl)⟩

/-- C8: for every connector configuration and input triple, the outbound
request is an HTTP POST to the configured endpoint whose headers map is
exactly `{"token": <configured token>, "Content-Type": "application/json"}`. -/
theorem c8_post_request_headers (c : FlagJudgeConn) (prompt prediction ground_truth : String) :
    (get_response_request c prompt prediction ground_truth).method = "POST" ∧
    (get_response_request c prompt prediction ground_truth).url = c.endpoint ∧
    (get_response_request c prompt prediction ground_truth).headers =
      [("token", c.token), ("Content-Type", "application/json")] :=
  ⟨rfl, rfl, rfl⟩

/-- C9 counterexample: processing the body `{"te` raises `ValueError`; if
the diagnostic `await response.text()` inside the `except` handler itself
fails (here with a client error), that secondary exception — not the
original `ValueError` — is what propagates, refuting the claim that the
diagnostic read is tolerated and the original exception propagates. -/
theorem c9_counterexample_secondary_failure_propagates :
    process_response [tailChunk] = .error PyErr.valueError ∧
    process_response_logged [tailChunk] (.error PyErr.clientError) = .error PyErr.clientError ∧
    process_response_logged [tailChunk] (.error PyErr.clientError) ≠ .error PyErr.valueError :=
  ⟨by rfl, by rfl, by decide⟩

/-- C9 (amended): on any failure while decoding the body the implementation
does attempt to read the response text for logging before re-raising, and
when that diagnostic read succeeds the original exception propagates; but
a failure of the diagnostic read is NOT tolerated — the `await
response.text()` call is not guarded, so its exception propagates in place
of the original one. -/
theorem c9_log_read_failure_replaces_original (chunks : List PyStr) (e : PyErr)
    (d : Except PyErr PyStr) (h : process_response chunks = .error e) :
    process_response_logged chunks d =
      (match d with
       | .ok _ => Except.error e
       | .error e2 => Except.error e2) := by
  cases d <;> simp [process_response_logged, h]

/-- C9 witness: the amended statement at the `{"te` body with a failing
diagnostic read. -/
theorem c9_log_read_failure_replaces_original_witness :
    process_response [tailChunk] = .error PyErr.valueError ∧
    process_response_logged [tailChunk] (.error PyErr.clientError) = .error PyErr.clientError :=
  ⟨by rfl,
    c9_log_read_failure_replaces_original [tailChunk] PyErr.valueError
      (.error PyErr.clientError) (by rfl)⟩

/-- C10: per nonempty chunk the loop consumes exactly the buffer up to the
first NUL as one fragment: (i) a nonempty chunk that leaves the buffer
without any NUL makes the iteration raise `ValueError` rather than wait
for more data; (ii) on success the new buffer is exactly the suffix after
the FIRST NUL of the old buffer plus chunk; (iii) concretely, a single
chunk holding the two complete fragments `{"text":"X"}\0{"text":"Y"}\0`
leaves the complete fragment `{"text":"Y"}\0` unparsed in the buffer when
the stream ends, and the call returns `"X"`. -/
theorem c10_one_split_per_chunk :
    (∀ (st : ProcState) (chunk : PyStr), chunk ≠ [] →
      hasNul (st.buffer ++ chunk) = false →
      processChunk st chunk = .error PyErr.valueError) ∧
    (∀ (st st' : ProcState) (chunk : PyStr), chunk ≠ [] →
      processChunk st chunk = .ok st' →
      st'.buffer = postNul (st.buffer ++ chunk)) ∧
    processChunks ⟨[], []⟩ [fragXChunk ++ fragYChunk] = .ok ⟨['X'], fragYChunk⟩ ∧
    process_response [fragXChunk ++ fragYChunk] = .ok ['X'] :=
  ⟨fun st chunk hne hn => processChunk_noNul st chunk hne hn,
   fun st st' chunk hne h => (processChunk_ok st st' chunk hne h).2.2,
   by rfl, by rfl⟩

/-- C10 witness: part (i) instantiated on the NUL-free chunk `{"te`. -/
theorem c10_one_split_per_chunk_witness :
    (tailChunk ≠ ([] : PyStr)) ∧
    hasNul (([] : PyStr) ++ tailChunk) = false ∧
    processChunk ⟨[], []⟩ tailChunk = .error PyErr.valueError :=
  ⟨by decide, by decide, c10_one_split_per_chunk.1 ⟨[], []⟩ tailChunk (by decide) (by decide)⟩
